import Mathlib

/-!
VeriFact validation pipeline engine: a shallow embedding of the agent
pipeline in `backend/src/agents/` (`planner.py`, `executor.py`,
`orchestrator.py`) together with the schema types they consume
(`schemas/validation.py`).

Modelling conventions:

* Python numeric payload values (floats and ints) are modelled as exact
  rationals (`ℚ`).
* Python dictionaries consulted by the pipeline are association lists;
  `key in d` is key membership, `d[key]` is lookup, and dict truthiness
  (an empty dict is falsy) is modelled explicitly where the code relies
  on it.
* Wall-clock timestamps and durations, uuids, logging and the agent
  message/observability channel are outside the embedding: no decision
  of the pipeline reads them back.
* The four concrete step handlers (`Executor._execute_fact_check` and
  friends) are placeholder stubs for out-of-scope external collaborators
  (AI/news services); the executor is parametrised by an oracle mapping
  each dispatched step to either its structured payload or the message of
  the exception it raised, which `Executor._execute_step` catches with a
  blanket `except`.
-/

namespace VeriFact

/-- Lifecycle status of a validation (`schemas/validation.py`,
`ValidationStatus`: a four-member string enum). -/
inductive ValidationStatus where
  | pending
  | in_progress
  | completed
  | failed
deriving DecidableEq, Repr

/-- Validation types (`schemas/validation.py`, `ValidationType`, a string
enum). The planner's full-analysis template also references a
`CONSISTENCY_CHECK` member for its fourth step; the schema enum does not
declare that member (a name-level slip in the source), so it is included
here carrying the string value the executor dispatches on. -/
inductive ValidationType where
  | fact_check
  | source_verification
  | contradiction_check
  | credibility_score
  | comprehensive
  | bias_analysis
  | full_analysis
  | consistency_check
deriving DecidableEq, Repr

/-- The string value of a `ValidationType` member; it is a Python `str`
enum, so comparison against a plain string compares this value. -/
def ValidationType.value : ValidationType → String
  | .fact_check => "fact_check"
  | .source_verification => "source_verification"
  | .contradiction_check => "contradiction_check"
  | .credibility_score => "credibility_score"
  | .comprehensive => "comprehensive"
  | .bias_analysis => "bias_analysis"
  | .full_analysis => "full_analysis"
  | .consistency_check => "consistency_check"

/-- Step parameter values: the planner's templates store strings, numbers
and string lists under `ValidationStep.parameters`. -/
inductive ParamVal where
  | str (v : String)
  | num (v : ℚ)
  | strs (v : List String)
deriving DecidableEq, Repr

/-- One step of a validation plan (`agents/planner.py`, `ValidationStep`),
with the source's defaults. -/
structure ValidationStep where
  step_id : String
  validation_type : ValidationType
  priority : Int := 1
  dependencies : List String := []
  parameters : List (String × ParamVal) := []
  required : Bool := true
  timeout : Int := 30
deriving DecidableEq, Repr

/-- The executor dispatches on `step.step_type` (`executor.py` line 132)
while the step model declares its type under `validation_type`; the
attribute read is modelled as the declared type's string value. -/
def ValidationStep.step_type (s : ValidationStep) : String :=
  s.validation_type.value

/-- A validation plan (`agents/planner.py`, `ValidationPlan`). The executor
reads `plan.plan_id` when initialising its `ExecutionResult` although the
source model declares no such field (another name-level slip); it is
modelled as an identifier defaulting to the empty string. The free-form
`context` map is omitted: nothing in the pipeline reads it. -/
structure ValidationPlan where
  plan_id : String := ""
  article_id : String
  steps : List ValidationStep := []
deriving DecidableEq, Repr

/-- A step handler's structured result payload, a Python dict. Only
numeric fields are ever consulted by the scorer, so values are modelled as
exact rationals standing for the Python numbers. -/
abbrev Payload := List (String × ℚ)

/-- Python `key in d` on a payload. -/
def Payload.containsKey (p : Payload) (k : String) : Bool :=
  (p.lookup k).isSome

/-- Python `float(d[key])` on a payload (`0` when the key is absent; the
scorer only reads keys it has just tested for membership). -/
def Payload.getQ (p : Payload) (k : String) : ℚ :=
  (p.lookup k).getD 0

/-- Result of executing a single validation step (`agents/executor.py`,
`StepResult`). The wall-clock `duration` field is outside the embedding.
`metadata` is a free-form dict of which the pipeline only ever consults the
boolean `required` entry, so it is modelled as a boolean association
list. -/
structure StepResult where
  step_id : String
  success : Bool
  result : Option Payload := none
  error : Option String := none
  metadata : List (String × Bool) := []
deriving DecidableEq, Repr

/-- Result of executing a validation plan (`agents/executor.py`,
`ExecutionResult`). The uuid `execution_id` and the start/end wall-clock
timestamps are outside the embedding; the `results` map is never
populated by the executor and is omitted. -/
structure ExecutionResult where
  plan_id : String
  article_id : String
  status : ValidationStatus := .pending
  steps : List StepResult := []
  error : Option String := none
deriving DecidableEq, Repr

/-- `ExecutionResult.add_step_result`: append a step result. -/
def ExecutionResult.add_step_result (er : ExecutionResult) (r : StepResult) :
    ExecutionResult :=
  { er with steps := er.steps ++ [r] }

/-- `ExecutionResult.finalize`: sets `end_time` (not modelled) and
unconditionally overwrites `status` with `completed`. -/
def ExecutionResult.finalize (er : ExecutionResult) : ExecutionResult :=
  { er with status := .completed }

/-- The handler oracle: what each dispatched step's concrete handler
returns, or the message of the exception it raises (spec treats the
concrete handlers as external collaborators; the stubs in
`agents/executor.py` call no services yet). -/
abbrev Handlers := ValidationStep → Except String Payload

/-- The closed set of step types `Executor._execute_step` dispatches on. -/
def knownStepTypes : List String :=
  ["fact_check", "source_verification", "bias_analysis", "consistency_check"]

/-- `Executor._execute_step`: dispatch by `step.step_type`; an unknown type
raises `ValueError("Unknown step type: …")`; every exception is caught and
recorded on the `StepResult` as `success := false` with the wrapped error
message — per-step errors are data, the function itself never raises. -/
def execute_step (handlers : Handlers) (step : ValidationStep) : StepResult :=
  let dispatched : Except String Payload :=
    if step.step_type == "fact_check" then handlers step
    else if step.step_type == "source_verification" then handlers step
    else if step.step_type == "bias_analysis" then handlers step
    else if step.step_type == "consistency_check" then handlers step
    else .error ("Unknown step type: " ++ step.step_type)
  match dispatched with
  | .ok r => { step_id := step.step_id, success := true, result := some r }
  | .error e =>
    { step_id := step.step_id, success := false,
      error := some ("Step " ++ step.step_id ++ " failed: " ++ e) }

/-- The `for step in plan.steps` loop of `Executor.run`: append each step's
result; on the first failed result set status `failed`, record its error
and `break`. -/
def run_steps (handlers : Handlers) :
    ExecutionResult → List ValidationStep → ExecutionResult
  | er, [] => er
  | er, step :: rest =>
    let sr := execute_step handlers step
    let er' := er.add_step_result sr
    if !sr.success then { er' with status := .failed, error := sr.error }
    else run_steps handlers er' rest

/-- `Executor.run`: initialise an in-progress `ExecutionResult`, run the
step loop, then call `finalize()` — which overwrites whatever status the
loop set with `completed`. -/
def Executor.run (handlers : Handlers) (plan : ValidationPlan) :
    ExecutionResult :=
  (run_steps handlers
    { plan_id := plan.plan_id, article_id := plan.article_id,
      status := .in_progress } plan.steps).finalize

/-- The per-step scorable contribution of `_calculate_confidence`'s loop
body: a `confidence` value as-is, else a `source_credibility_score` value
as-is, else `1 - |0.5 - bias_score|`, else nothing. -/
def step_contribution (r : Payload) : Option ℚ :=
  if r.containsKey "confidence" then some (r.getQ "confidence")
  else if r.containsKey "source_credibility_score" then
    some (r.getQ "source_credibility_score")
  else if r.containsKey "bias_score" then
    some (1 - |(1 : ℚ) / 2 - r.getQ "bias_score"|)
  else none

/-- One iteration of `_calculate_confidence`'s accumulation loop over
`(total_confidence, num_steps)`; the `step.success and step.result` guard
uses Python truthiness, under which `None` and the empty dict are falsy. -/
def confidence_fold (acc : ℚ × ℕ) (step : StepResult) : ℚ × ℕ :=
  match step.result with
  | some r =>
    if step.success && !r.isEmpty then
      match step_contribution r with
      | some c => (acc.1 + c, acc.2 + 1)
      | none => acc
    else acc
  | none => acc

/-- `sum(1 for step in execution_result.steps if step.success)`. -/
def successful_count (steps : List StepResult) : ℕ :=
  (steps.filter (·.success)).length

/-- `ValidationOrchestrator._calculate_confidence`. -/
def ValidationOrchestrator.calculate_confidence (er : ExecutionResult) : ℚ :=
  if er.steps.isEmpty then 0
  else
    let acc := er.steps.foldl confidence_fold (0, 0)
    if acc.2 = 0 then (successful_count er.steps : ℚ) / er.steps.length
    else acc.1 / acc.2

/-- `step.metadata.get('required', True)` as `_is_credible` reads it. -/
def required_of (step : StepResult) : Bool :=
  (step.metadata.lookup "required").getD true

/-- `ValidationOrchestrator._is_credible`. -/
def ValidationOrchestrator.is_credible (er : ExecutionResult) : Bool :=
  if er.steps.isEmpty then false
  else if er.steps.any (fun s => required_of s && !s.success) then false
  else decide (7 / 10 ≤ ValidationOrchestrator.calculate_confidence er)

/-- A validation request as the planner consumes it (`request.article_id`
and `request.validation_type`; spec §6 intake shape). -/
structure ValidationRequest where
  article_id : String
  validation_type : ValidationType
deriving DecidableEq, Repr

/-- `Planner._create_full_analysis_plan`'s step template. -/
def full_analysis_steps : List ValidationStep :=
  [{ step_id := "source_verification",
     validation_type := .source_verification,
     priority := 1,
     parameters := [("depth", .str "thorough")] },
   { step_id := "fact_checking",
     validation_type := .fact_check,
     priority := 2,
     dependencies := ["source_verification"],
     parameters := [("model", .str "gemini-pro"), ("max_claims", .num 10)] },
   { step_id := "bias_analysis",
     validation_type := .bias_analysis,
     priority := 2,
     dependencies := ["source_verification"],
     parameters :=
       [("aspects", .strs ["political", "corporate", "geopolitical"])] },
   { step_id := "consistency_check",
     validation_type := .consistency_check,
     priority := 3,
     dependencies := ["fact_checking", "bias_analysis"],
     parameters := [("threshold", .num (4 / 5))] }]

/-- `Planner._create_fact_check_plan`'s step template. -/
def fact_check_steps : List ValidationStep :=
  [{ step_id := "fact_checking",
     validation_type := .fact_check,
     priority := 1,
     parameters := [("model", .str "gemini-pro"), ("max_claims", .num 15)] }]

/-- `Planner._create_source_verification_plan`'s step template. -/
def source_verification_steps : List ValidationStep :=
  [{ step_id := "source_verification",
     validation_type := .source_verification,
     priority := 1,
     parameters := [("depth", .str "standard")] }]

/-- `Planner._create_bias_analysis_plan`'s step template. -/
def bias_analysis_steps : List ValidationStep :=
  [{ step_id := "bias_analysis",
     validation_type := .bias_analysis,
     priority := 1,
     parameters :=
       [("aspects", .strs ["political", "corporate", "geopolitical"])] }]

/-- `Planner.run`: dispatch the request's validation type to a fixed step
template; an unrecognised type raises `PlannerError`, which the method's
blanket `except` re-wraps as `PlannerError("Planning failed: …")` (so every
planning failure carries that prefix). Raising is modelled as
`Except.error` carrying the error message. -/
def Planner.run (request : ValidationRequest) :
    Except String ValidationPlan :=
  match request.validation_type with
  | .full_analysis =>
    .ok { article_id := request.article_id, steps := full_analysis_steps }
  | .fact_check =>
    .ok { article_id := request.article_id, steps := fact_check_steps }
  | .source_verification =>
    .ok { article_id := request.article_id,
          steps := source_verification_steps }
  | .bias_analysis =>
    .ok { article_id := request.article_id, steps := bias_analysis_steps }
  | t =>
    .error ("Planning failed: Unknown validation type: " ++ t.value)

/-- The persisted validation row the orchestrator creates through
`ValidationService.create_validation` and later rewrites through
`_update_validation_result` (status, overall confidence, credibility
verdict, error). -/
structure ValidationRecord where
  validation_id : ℕ
  status : ValidationStatus
  overall_confidence : Option ℚ := none
  credible : Option Bool := none
  error : Option String := none
deriving DecidableEq, Repr

/-- External persistence and cache state threaded through
`ValidationOrchestrator.run`: the relational validation rows, and the
key-value entries written by `Memory.store_execution_plan` and
`Memory.store_execution_result` (keyed by execution id; TTLs are outside
the embedding). -/
structure OrchestratorState where
  validations : List ValidationRecord := []
  stored_plans : List (ℕ × ValidationPlan) := []
  stored_results : List (ℕ × ExecutionResult) := []
deriving DecidableEq, Repr

/-- `ValidationService.update_validation`: rewrite the row with the given
id. -/
def update_validation (st : OrchestratorState) (vid : ℕ)
    (f : ValidationRecord → ValidationRecord) : OrchestratorState :=
  { st with validations := st.validations.map fun v =>
      if v.validation_id = vid then f v else v }

/-- `ValidationOrchestrator.run`: create the initial pending validation
row; plan; store the plan; execute; store the execution result; rewrite
the validation row from the execution result through the scorer (status
`completed` exactly when the execution result's status is `completed`).
An error raised by the planner jumps to the `except` branch, which marks
the row failed with the triggering message and re-raises it as
`AgentError("Validation failed: …")`. The uuids used as row and execution
ids are modelled as fresh counters over the state. -/
def ValidationOrchestrator.run (handlers : Handlers)
    (request : ValidationRequest) (st : OrchestratorState) :
    Except String ValidationRecord × OrchestratorState :=
  let vid := st.validations.length
  let st1 : OrchestratorState :=
    { st with validations :=
        st.validations ++ [{ validation_id := vid, status := .pending }] }
  match Planner.run request with
  | .error e =>
    (.error ("Validation failed: " ++ e),
     update_validation st1 vid fun v =>
       { v with status := .failed, error := some e })
  | .ok plan =>
    let execution_id := st1.stored_plans.length
    let st2 := { st1 with stored_plans :=
        st1.stored_plans ++ [(execution_id, plan)] }
    let er := Executor.run handlers plan
    let st3 := { st2 with stored_results :=
        st2.stored_results ++ [(execution_id, er)] }
    let v : ValidationRecord :=
      { validation_id := vid,
        status := if er.status = .completed then .completed else .failed,
        overall_confidence :=
          some (ValidationOrchestrator.calculate_confidence er),
        credible := some (ValidationOrchestrator.is_credible er) }
    (.ok v, update_validation st3 vid fun _ => v)

/-- A handler oracle under which every dispatched step succeeds with the
placeholder payload of the source's stub handlers (its non-numeric
`status`/`details` fields carry nothing the pipeline reads). -/
def stub_handlers : Handlers := fun _ => .ok []

/-- A plan with a single required step whose type lies outside the
executor's dispatch set, so that it fails deterministically. -/
def single_failing_plan : ValidationPlan :=
  { article_id := "article-c1",
    steps := [{ step_id := "s1", validation_type := .contradiction_check }] }

/-- A plan declaring `b` (priority 2) to depend on `a` (priority 1) while
listing `b` first. -/
def misordered_plan : ValidationPlan :=
  { article_id := "article-c2",
    steps := [{ step_id := "b", validation_type := .fact_check,
                priority := 2, dependencies := ["a"] },
              { step_id := "a", validation_type := .bias_analysis,
                priority := 1 }] }

/-- The planner's full-analysis plan for a concrete article. -/
def full_analysis_plan : ValidationPlan :=
  { article_id := "article-c3", steps := full_analysis_steps }

/-- A handler oracle under which `source_verification` raises and every
other dispatched step succeeds. -/
def failing_sv_handlers : Handlers := fun step =>
  if step.step_id == "source_verification" then
    .error "source verification service unavailable"
  else .ok [("confidence", 1)]

/-- An execution result with one successful step whose payload reports
`confidence` as `2.0`. -/
def overconfident_er : ExecutionResult :=
  { plan_id := "", article_id := "article-c6", status := .completed,
    steps := [{ step_id := "s", success := true,
                result := some [("confidence", 2)] }] }

/-- A plan listing a step of unknown type followed by an independent step
(no dependencies) of known type. -/
def unknown_then_independent_plan : ValidationPlan :=
  { article_id := "article-c9",
    steps := [{ step_id := "u", validation_type := .credibility_score },
              { step_id := "v", validation_type := .fact_check }] }

/-- The scorable contributions as the claim words them: one per successful
step whose result payload contains a scorable field, read off by
`step_contribution`. -/
def scorable_contributions (steps : List StepResult) : List ℚ :=
  steps.filterMap fun s =>
    if s.success then s.result.bind step_contribution else none

/-- Scenario B: a full-analysis execution where all four steps succeed;
`source_verification` reports a credibility score of 0.9, `bias_analysis` a
perfectly neutral bias of 0.5, and `fact_checking` and `consistency_check`
carry no scorable field. -/
def scenarioB_er : ExecutionResult :=
  { plan_id := "", article_id := "article-b", status := .completed,
    steps :=
      [{ step_id := "source_verification", success := true,
         result := some [("source_credibility_score", 9 / 10)] },
       { step_id := "fact_checking", success := true,
         result := some [("claims_supported", 8),
                         ("claims_contradicted", 2)] },
       { step_id := "bias_analysis", success := true,
         result := some [("bias_score", 1 / 2)] },
       { step_id := "consistency_check", success := true,
         result := some [("threshold", 4 / 5)] }] }

/-- An execution result with one successful step whose payload carries both
a `confidence` field (0.2) and a `bias_score` field (0.5). -/
def multi_field_er : ExecutionResult :=
  { plan_id := "", article_id := "article-c10", status := .completed,
    steps := [{ step_id := "s", success := true,
                result := some [("confidence", 1 / 5),
                                ("bias_score", 1 / 2)] }] }

/-- C1: the claim reads "Execute returns an ExecutionResult whose status is
`failed` if any required Step ultimately failed, and `completed`
otherwise." The code violates it: the run loop does set status `failed`
and break when a step fails, but `finalize()` then unconditionally
overwrites the status with `completed`, so every `Executor.run` returns
status `completed` — even for `single_failing_plan`, whose only (required)
step fails. -/
theorem C1_status_always_completed :
    (∀ (handlers : Handlers) (plan : ValidationPlan),
      (Executor.run handlers plan).status = ValidationStatus.completed) ∧
    (Executor.run stub_handlers single_failing_plan).steps.map
      StepResult.success = [false] ∧
    single_failing_plan.steps.map ValidationStep.required = [true] :=
  ⟨fun _ _ => rfl, rfl, rfl⟩

/-- C2: the claim reads "Execute runs Steps in an order consistent with
their declared dependencies, ties among ready Steps broken by ascending
priority." The code violates it: `Executor.run` iterates `plan.steps` in
declaration order, so on `misordered_plan` it runs and records `b`
(which declares a dependency on `a`, and has the larger priority) before
`a` has reached any state. -/
theorem C2_declaration_order_ignores_dependencies :
    (Executor.run stub_handlers misordered_plan).steps.map
      StepResult.step_id = ["b", "a"] ∧
    misordered_plan.steps.map
      (fun s => (s.step_id, s.dependencies, s.priority)) =
      [("b", ["a"], 2), ("a", [], 1)] :=
  ⟨rfl, rfl⟩

/-- C3: the claim reads "every dependent of a failed required Step is
recorded as a skipped failure and Steps not depending on it continue; in a
full-analysis run where source_verification fails, fact_checking,
bias_analysis and consistency_check are all recorded as skipped." The
code violates it: when `source_verification` (the first step) fails, the
run loop breaks at once — the other three steps of the full-analysis plan
are neither executed nor recorded in any form. -/
theorem C3_dependents_never_recorded_as_skipped :
    (Executor.run failing_sv_handlers full_analysis_plan).steps.map
      StepResult.step_id = ["source_verification"] ∧
    (Executor.run failing_sv_handlers full_analysis_plan).steps.map
      StepResult.success = [false] ∧
    full_analysis_plan.steps.map ValidationStep.step_id =
      ["source_verification", "fact_checking", "bias_analysis",
       "consistency_check"] :=
  ⟨rfl, rfl, rfl⟩

/-- C6: the claim (and `_calculate_confidence`'s own docstring) reads "the
confidence value lies in [0, 1]." The code violates it: reported
`confidence` values are averaged as-is with no clamping, so a single
successful step whose payload reports `confidence = 2.0` yields an overall
confidence of `2`. -/
theorem C6_confidence_can_exceed_one :
    ValidationOrchestrator.calculate_confidence overconfident_er = 2 ∧
    1 < ValidationOrchestrator.calculate_confidence overconfident_er := by
  have h : ValidationOrchestrator.calculate_confidence overconfident_er = 2 := by
    simp [ValidationOrchestrator.calculate_confidence, overconfident_er,
      confidence_fold, step_contribution, Payload.containsKey, Payload.getQ,
      List.lookup]
  exact ⟨h, by rw [h]; norm_num⟩

/-- C9: the claim reads "an unknown step type produces a StepResult with
`success=false` and an error describing the unknown type, recorded as data
without raising across the Executor boundary, and it does not abort the
execution of remaining independent Steps." The first parts hold on
`unknown_then_independent_plan` — `u`'s failure is recorded as data inside
the returned ExecutionResult — but the last is violated: after `u` fails,
the run loop breaks, and the independent step `v` (known type, no
dependencies) is never executed or recorded. -/
theorem C9_unknown_type_recorded_but_aborts_rest :
    (Executor.run stub_handlers unknown_then_independent_plan).steps =
      [{ step_id := "u", success := false,
         error := some "Step u failed: Unknown step type: credibility_score" }] ∧
    unknown_then_independent_plan.steps.map
      (fun s => (s.step_id, s.step_type, s.dependencies)) =
      [("u", "credibility_score", []), ("v", "fact_check", [])] :=
  ⟨rfl, rfl⟩

/-- The loop body of `_calculate_confidence` applies the step's scorable
contribution exactly when the step is successful and its payload yields
one (an empty payload yields none, so the Python truthiness guard changes
nothing). -/
lemma confidence_fold_eq (acc : ℚ × ℕ) (s : StepResult) :
    confidence_fold acc s =
      match (if s.success then s.result.bind step_contribution else none) with
      | some c => (acc.1 + c, acc.2 + 1)
      | none => acc := by
  rcases s with ⟨sid, succ, res, err, md⟩
  cases res with
  | none => cases succ <;> rfl
  | some r =>
    cases succ with
    | false => rfl
    | true => cases r with
      | nil => rfl
      | cons hd tl => rfl

/-- One step's head contribution in the spec-side list. -/
lemma scorable_contributions_cons (s : StepResult) (rest : List StepResult) :
    scorable_contributions (s :: rest) =
      match (if s.success then s.result.bind step_contribution else none) with
      | some c => c :: scorable_contributions rest
      | none => scorable_contributions rest := by
  cases h : (if s.success then s.result.bind step_contribution else none) with
  | none => simp [scorable_contributions, List.filterMap_cons, h]
  | some c => simp [scorable_contributions, List.filterMap_cons, h]

/-- The accumulation loop of `_calculate_confidence` computes the sum and
the count of the scorable contributions. -/
lemma foldl_confidence_fold (steps : List StepResult) (a : ℚ) (n : ℕ) :
    steps.foldl confidence_fold (a, n) =
      (a + (scorable_contributions steps).sum,
       n + (scorable_contributions steps).length) := by
  induction steps generalizing a n with
  | nil => simp [scorable_contributions]
  | cons s rest ih =>
    rw [List.foldl_cons, confidence_fold_eq, scorable_contributions_cons]
    cases h : (if s.success then s.result.bind step_contribution else none) with
    | none => exact ih a n
    | some c =>
      rw [ih]
      simp only [List.sum_cons, List.length_cons, Prod.mk.injEq]
      exact ⟨by ring, by omega⟩

/-- `_calculate_confidence` equals the spec's formulation: the arithmetic
mean of the scorable contributions, falling back to the successful-step
ratio when no step contributes, and to `0` when there are no steps. -/
lemma calculate_confidence_spec (er : ExecutionResult) :
    ValidationOrchestrator.calculate_confidence er =
      if scorable_contributions er.steps = [] then
        if er.steps = [] then 0
        else (successful_count er.steps : ℚ) / er.steps.length
      else (scorable_contributions er.steps).sum /
        (scorable_contributions er.steps).length := by
  unfold ValidationOrchestrator.calculate_confidence
  by_cases h : er.steps = []
  · simp [h, scorable_contributions]
  · rw [foldl_confidence_fold]
    by_cases hc : scorable_contributions er.steps = []
    · simp [h, hc]
    · have hlen : (scorable_contributions er.steps).length ≠ 0 := by
        simpa [List.length_eq_zero] using hc
      simp [h, hc, hlen]

/-- C4: the Scorer's confidence is the arithmetic mean, over every
successful step whose payload contains a scorable field, of the per-step
contribution (`confidence` as-is, else `source_credibility_score` as-is,
else `1 - |0.5 - bias_score|`); with no contributing step it is
`successful_steps / total_steps`, and `0` with no steps at all; on
scenario B the contributions are 0.9 and 1.0 and the confidence is
their mean, 0.95. -/
theorem C4_confidence_is_mean_of_contributions :
    (∀ er : ExecutionResult,
      ValidationOrchestrator.calculate_confidence er =
        if scorable_contributions er.steps = [] then
          if er.steps = [] then 0
          else (successful_count er.steps : ℚ) / er.steps.length
        else (scorable_contributions er.steps).sum /
          (scorable_contributions er.steps).length) ∧
    scorable_contributions scenarioB_er.steps = [9 / 10, 1] ∧
    ValidationOrchestrator.calculate_confidence scenarioB_er = 19 / 20 := by
  have hc : scorable_contributions scenarioB_er.steps = [9 / 10, 1] := by
    simp [scorable_contributions, scenarioB_er, step_contribution,
      Payload.containsKey, Payload.getQ, List.lookup]
  refine ⟨calculate_confidence_spec, hc, ?_⟩
  have h2 : ([9 / 10, 1] : List ℚ) ≠ [] := by simp
  rw [calculate_confidence_spec, hc, if_neg h2]
  norm_num

/-- A failure among required-marked steps, as `_is_credible`'s loop tests
it, is absent exactly when every required-marked step succeeded. -/
lemma no_required_failure_iff (steps : List StepResult) :
    (steps.any fun s => required_of s && !s.success) = false ↔
      ∀ s ∈ steps, required_of s = true → s.success = true := by
  rw [List.any_eq_false]
  constructor
  · intro h s hs hr
    have := h s hs
    simp only [hr, Bool.true_and, Bool.not_eq_true', Bool.not_eq_true] at this
    simpa using this
  · intro h s hs
    by_cases hr : required_of s = true
    · simp [hr, h s hs hr]
    · simp [Bool.not_eq_true] at hr
      simp [hr]

/-- C5: `is_credible` is false whenever a step marked required (the
default when the metadata key is unspecified, via `required_of`) failed,
and otherwise equals `confidence ≥ 0.70` — so it is false whenever the
confidence is below 0.70 even with no required failure. -/
theorem C5_is_credible_characterization :
    ∀ er : ExecutionResult,
      ValidationOrchestrator.is_credible er = true ↔
        ((∀ s ∈ er.steps, required_of s = true → s.success = true) ∧
          7 / 10 ≤ ValidationOrchestrator.calculate_confidence er) := by
  intro er
  unfold ValidationOrchestrator.is_credible
  by_cases h : er.steps = []
  · have h0 : ValidationOrchestrator.calculate_confidence er = 0 := by
      simp [ValidationOrchestrator.calculate_confidence, h]
    simp [h, h0]
  · rw [if_neg (by simp [h])]
    by_cases ha : (er.steps.any fun s => required_of s && !s.success) = true
    · simp only [ha, if_true]
      obtain ⟨s, hs, hsp⟩ := List.any_eq_true.mp ha
      simp only [Bool.and_eq_true, Bool.not_eq_true'] at hsp
      constructor
      · intro hfalse; exact absurd hfalse (by simp)
      · rintro ⟨hall, -⟩
        exact absurd (hall s hs hsp.1) (by simp [hsp.2])
    · have ha' := Bool.not_eq_true _ |>.mp ha
      rw [if_neg (by simp [ha'])]
      have hall := (no_required_failure_iff er.steps).mp ha'
      constructor
      · intro hd; exact ⟨hall, of_decide_eq_true hd⟩
      · rintro ⟨-, hconf⟩; exact decide_eq_true hconf

/-- C7: a request whose validation type is outside the four known types
makes `Planner.run` fail with the planning error; the orchestrator then
surfaces that error synchronously as its raised `AgentError` message, and
neither a plan nor an execution result is stored. -/
theorem C7_unknown_type_is_planning_error (handlers : Handlers)
    (request : ValidationRequest) (st : OrchestratorState)
    (h : request.validation_type ∉
      [ValidationType.fact_check, ValidationType.source_verification,
       ValidationType.bias_analysis, ValidationType.full_analysis]) :
    Planner.run request =
      Except.error
        ("Planning failed: Unknown validation type: " ++
          request.validation_type.value) ∧
    (ValidationOrchestrator.run handlers request st).1 =
      Except.error
        ("Validation failed: " ++
          ("Planning failed: Unknown validation type: " ++
            request.validation_type.value)) ∧
    (ValidationOrchestrator.run handlers request st).2.stored_plans =
      st.stored_plans ∧
    (ValidationOrchestrator.run handlers request st).2.stored_results =
      st.stored_results := by
  obtain ⟨a, t⟩ := request
  have hp : Planner.run ⟨a, t⟩ =
      Except.error
        ("Planning failed: Unknown validation type: " ++ t.value) := by
    cases t <;> simp_all [Planner.run, List.mem_cons]
  refine ⟨hp, ?_, ?_, ?_⟩ <;>
    simp [ValidationOrchestrator.run, hp, update_validation]

/-- Witness for C7: a concrete `comprehensive` request against the empty
state is rejected with the planning error and stores no plan. -/
theorem C7_witness :
    (({ article_id := "article-d", validation_type := .comprehensive } :
        ValidationRequest).validation_type ∉
      [ValidationType.fact_check, ValidationType.source_verification,
       ValidationType.bias_analysis, ValidationType.full_analysis]) ∧
    ((ValidationOrchestrator.run (fun _ => Except.ok [])
        { article_id := "article-d", validation_type := .comprehensive }
        {}).1 =
      Except.error
        ("Validation failed: " ++
          ("Planning failed: Unknown validation type: " ++
            ValidationType.comprehensive.value)) ∧
     (ValidationOrchestrator.run (fun _ => Except.ok [])
        { article_id := "article-d", validation_type := .comprehensive }
        {}).2.stored_plans = ({} : OrchestratorState).stored_plans) :=
  ⟨by decide,
   (C7_unknown_type_is_planning_error (fun _ => Except.ok [])
      { article_id := "article-d", validation_type := .comprehensive } {}
      (by decide)).2.1,
   (C7_unknown_type_is_planning_error (fun _ => Except.ok [])
      { article_id := "article-d", validation_type := .comprehensive } {}
      (by decide)).2.2.1⟩

/-- C8: `Planner.run` is deterministic — two requests of the same
validation type receive the same steps, dependencies and priorities — and
the full-analysis template is exactly the four claimed steps. -/
theorem C8_planner_deterministic_and_full_analysis_shape :
    (∀ r r' : ValidationRequest, r.validation_type = r'.validation_type →
      (Planner.run r).map ValidationPlan.steps =
        (Planner.run r').map ValidationPlan.steps) ∧
    (∀ a : String,
      (Planner.run { article_id := a, validation_type := .full_analysis }).map
        (fun p => p.steps.map fun s =>
          (s.step_id, s.priority, s.dependencies)) =
      Except.ok
        [("source_verification", 1, []),
         ("fact_checking", 2, ["source_verification"]),
         ("bias_analysis", 2, ["source_verification"]),
         ("consistency_check", 3, ["fact_checking", "bias_analysis"])]) := by
  constructor
  · rintro ⟨a, t⟩ ⟨a', t'⟩ h
    simp only at h
    subst h
    cases t <;> rfl
  · intro a; rfl

/-- C10: among scorable fields, exactly one contributes per step, with the
fixed precedence `confidence` over `source_credibility_score` over
`bias_score`; a payload carrying confidence 0.2 and a neutral bias score
contributes 0.2 — not 1.0, and not both. -/
theorem C10_scorable_field_precedence :
    (∀ r : Payload, r.containsKey "confidence" = true →
      step_contribution r = some (r.getQ "confidence")) ∧
    (∀ r : Payload, r.containsKey "confidence" = false →
      r.containsKey "source_credibility_score" = true →
      step_contribution r = some (r.getQ "source_credibility_score")) ∧
    scorable_contributions multi_field_er.steps = [1 / 5] ∧
    ValidationOrchestrator.calculate_confidence multi_field_er = 1 / 5 := by
  have hms : scorable_contributions multi_field_er.steps = [1 / 5] := by
    simp [scorable_contributions, multi_field_er, step_contribution,
      Payload.containsKey, Payload.getQ, List.lookup]
  refine ⟨?_, ?_, hms, ?_⟩
  · intro r h; simp [step_contribution, h]
  · intro r h h'; simp [step_contribution, h, h']
  · have h2 : ([1 / 5] : List ℚ) ≠ [] := by simp
    rw [calculate_confidence_spec, hms, if_neg h2]
    norm_num

end VeriFact
